import Mathlib

/-!
Shallow embedding of `src/functions/index.js` (Firebase Cloud Functions for a
referral-based deposit platform) and verification of its specification.

Modelling conventions:
* Monetary amounts are rationals (`ℚ`); JS numeric literals `0.5`, `0.20`,
  `0.05` become `1/2`, `20/100`, `5/100`.
* A Firestore collection is a total function from document id (`String`) to
  `Option` of the document; `none` means the document does not exist.
* Firestore `update()` on a missing document rejects (throws); this is modelled
  by `fsUpdate` returning `none`.
* JS truthiness on optional string fields (`!pixKey`, `!referrerId`):
  `undefined` and `""` are falsy, modelled by `jsTruthy` / `refOf`.
* `FieldValue.increment` reads the current stored value at write time; the
  debit of `processWithdrawal` is therefore modelled by `applyDebit`, which
  re-reads the store, so that interleavings of the read phase and the write
  phase of concurrent invocations can be expressed faithfully.
-/

namespace Pirame

/-- A user document in the `users` collection. -/
structure User where
  balance : ℚ
  hasDeposited : Bool
  referredBy : Option String
  pixKey : Option String
  pixFullName : Option String
  earningsLevel1 : ℚ
  earningsLevel2 : ℚ
  deriving DecidableEq, Repr

/-- The `users` collection: document id to document. -/
abbrev Users := String → Option User

/-- The `products` collection, reduced to the only field read: `price`. -/
abbrev Products := String → Option ℚ

/-- Overwrite one document of the collection. -/
def setUser (users : Users) (id : String) (u : User) : Users :=
  fun k => if k = id then some u else users k

/-- JS truthiness of an optional string field: `undefined` and `""` are falsy. -/
def jsTruthy : Option String → Bool
  | none => false
  | some s => !(s = "")

/-- A JS falsy check on an optional string id (`if (!referrerId)`): an absent or
empty id behaves as "no reference". -/
def refOf : Option String → Option String
  | none => none
  | some s => if s = "" then none else some s

/-- Firestore `update()`: rejects (throws) when the document does not exist. -/
def fsUpdate (users : Users) (id : String) (f : User → User) : Option Users :=
  match users id with
  | none => none
  | some u => some (setUser users id (f u))

/-- The payment object fetched from the gateway (`mercadopago.payment.get`),
reduced to the fields the webhook reads. -/
structure PaymentInfo where
  status : String
  external_reference : String
  transaction_amount : ℚ
  deriving DecidableEq, Repr

/-- `paymentWebhook` (index.js lines 88-129): on a `payment` topic with an
`approved` payment whose `external_reference` names an existing user, credit
`amount + bonus` (bonus `amount * 0.5` iff `!hasDeposited && amount >= 200`)
and set `hasDeposited := true`; every other path acknowledges with HTTP 200 and
no mutation. Returns the updated collection and the HTTP status sent. -/
def paymentWebhook (topic : String) (payment : PaymentInfo) (users : Users) :
    Users × Nat :=
  if topic ≠ "payment" then (users, 200)
  else if payment.status = "approved" then
    match users payment.external_reference with
    | none => (users, 200)
    | some userData =>
      let bonus : ℚ :=
        if userData.hasDeposited = false ∧ 200 ≤ payment.transaction_amount
        then payment.transaction_amount * (1 / 2) else 0
      let totalAmount := payment.transaction_amount + bonus
      (setUser users payment.external_reference
        { userData with
          balance := userData.balance + totalAmount
          hasDeposited := true }, 200)
  else (users, 200)

/-- Error codes of `functions.https.HttpsError` used by the source. -/
inductive ErrCode
  | unauthenticated
  | invalidArgument
  | notFound
  | failedPrecondition
  | internal
  deriving DecidableEq, Repr

/-- A typed error thrown by a callable function. -/
structure HttpsError where
  code : ErrCode
  message : String
  deriving DecidableEq, Repr

def msgUnauthenticated : String := "É necessário estar autenticado."

def msgInvalidAmount : String := "Valor de levantamento inválido."

def msgUserNotFound : String := "Utilizador não encontrado."

def msgPixIncomplete : String :=
  "Dados PIX incompletos. Registe o nome completo e a chave PIX no seu perfil."

def msgInsufficient : String := "Saldo insuficiente."

/-- The read-and-validate phase of `processWithdrawal` (index.js lines 155-184),
everything after the authentication check and before the debit write: amount
bounds (the JS guard `!amount || amount < 30 || amount > 5000`; over ℚ the
falsy case `amount = 0` is subsumed by `amount < 30`), user existence, payout
profile (`pixKey`/`pixFullName` truthy), and balance sufficiency
(`currentBalance = data().balance || 0`). -/
def withdrawalCheck (userId : String) (amount : ℚ) (users : Users) :
    Except HttpsError User :=
  if amount < 30 ∨ 5000 < amount then
    .error ⟨.invalidArgument, msgInvalidAmount⟩
  else
    match users userId with
    | none => .error ⟨.notFound, msgUserNotFound⟩
    | some u =>
      if !(jsTruthy u.pixKey) || !(jsTruthy u.pixFullName) then
        .error ⟨.failedPrecondition, msgPixIncomplete⟩
      else if u.balance < amount then
        .error ⟨.failedPrecondition, msgInsufficient⟩
      else .ok u

/-- The debit write `update({ balance: increment(-amount) })`: an atomic
increment against the CURRENT stored value (not the value read earlier).
On a missing document Firestore `update` rejects; the webhook flow never
reaches that case, it is kept for totality. -/
def applyDebit (users : Users) (userId : String) (amount : ℚ) : Users :=
  match users userId with
  | none => users
  | some u => setUser users userId { u with balance := u.balance - amount }

/-- `processWithdrawal` (index.js lines 144-218): authentication, then the
validation phase, then the debit; the payout call is simulated, so success is
returned right after the debit. -/
def processWithdrawal (auth : Option String) (amount : ℚ) (users : Users) :
    Users × Except HttpsError Unit :=
  match auth with
  | none => (users, .error ⟨.unauthenticated, msgUnauthenticated⟩)
  | some userId =>
    match withdrawalCheck userId amount users with
    | .error e => (users, .error e)
    | .ok _ => (applyDebit users userId amount, .ok ())

/-- The level-1 commission write: `balance += price * 0.20`,
`earningsLevel1 += price * 0.20`. -/
def creditL1 (price : ℚ) (r : User) : User :=
  { r with
    balance := r.balance + price * (20 / 100)
    earningsLevel1 := r.earningsLevel1 + price * (20 / 100) }

/-- The level-2 commission write: `balance += price * 0.05`,
`earningsLevel2 += price * 0.05`. -/
def creditL2 (price : ℚ) (g : User) : User :=
  { g with
    balance := g.balance + price * (5 / 100)
    earningsLevel2 := g.earningsLevel2 + price * (5 / 100) }

/-- `distributeCommissions` (index.js lines 225-294): resolve the product
price (missing product: clean no-op), resolve the affiliating user (missing
user: clean no-op), stop if no referrer; otherwise, inside a try/catch, credit
level 1, then resolve the referrer's referrer and credit level 2. A rejected
`update` throws and is caught and logged; the Bool of the result records
whether an error was caught. -/
def distributeCommissions (products : Products) (users : Users)
    (userId productId : String) : Users × Bool :=
  match products productId with
  | none => (users, false)
  | some productPrice =>
    match users userId with
    | none => (users, false)
    | some userDoc =>
      match refOf userDoc.referredBy with
      | none => (users, false)
      | some referrerId =>
        match fsUpdate users referrerId (creditL1 productPrice) with
        | none => (users, true)
        | some users1 =>
          match users1 referrerId with
          | none => (users1, false)
          | some referrerDoc =>
            match refOf referrerDoc.referredBy with
            | none => (users1, false)
            | some grandReferrerId =>
              match fsUpdate users1 grandReferrerId (creditL2 productPrice) with
              | none => (users1, true)
              | some users2 => (users2, false)

/-- Success test for a callable-function result. -/
def isSuccess (r : Except HttpsError Unit) : Bool :=
  match r with
  | .ok _ => true
  | .error _ => false

/-! Helper lemmas. -/

theorem setUser_map_eq {α : Type} (users : Users) (id : String) (v u2 : User)
    (f : User → α) (hv : users id = some v) (hf : f u2 = f v) (k : String) :
    ((setUser users id u2) k).map f = (users k).map f := by
  unfold setUser
  by_cases hk : k = id
  · subst hk
    simp [hv, hf]
  · simp [hk]

theorem applyDebit_hasDeposited (users : Users) (uid : String) (a : ℚ)
    (k : String) :
    ((applyDebit users uid a) k).map User.hasDeposited
      = (users k).map User.hasDeposited := by
  unfold applyDebit
  cases h : users uid with
  | none => rfl
  | some u =>
    simp only [h]
    exact setUser_map_eq users uid u { u with balance := u.balance - a }
      User.hasDeposited h rfl k

theorem processWithdrawal_hasDeposited (auth : Option String) (amount : ℚ)
    (users : Users) (k : String) :
    (((processWithdrawal auth amount users).1) k).map User.hasDeposited
      = (users k).map User.hasDeposited := by
  unfold processWithdrawal
  cases auth with
  | none => rfl
  | some uid =>
    cases h : withdrawalCheck uid amount users with
    | error e => simp [h]
    | ok u => simp [h, applyDebit_hasDeposited]

theorem fsUpdate_hasDeposited (users : Users) (id : String) (f : User → User)
    (hf : ∀ u, (f u).hasDeposited = u.hasDeposited) (users2 : Users)
    (h : fsUpdate users id f = some users2) (k : String) :
    (users2 k).map User.hasDeposited = (users k).map User.hasDeposited := by
  unfold fsUpdate at h
  cases hu : users id with
  | none =>
    rw [hu] at h
    cases h
  | some u =>
    rw [hu] at h
    injection h with h2
    subst h2
    exact setUser_map_eq users id u (f u) User.hasDeposited hu (hf u) k

theorem distributeCommissions_hasDeposited (products : Products)
    (users : Users) (uid pid : String) (k : String) :
    (((distributeCommissions products users uid pid).1) k).map User.hasDeposited
      = (users k).map User.hasDeposited := by
  unfold distributeCommissions
  cases hp : products pid with
  | none => simp [hp]
  | some price =>
    simp only [hp]
    cases hu : users uid with
    | none => simp
    | some u =>
      simp only [hu]
      cases hr : refOf u.referredBy with
      | none => simp [hr]
      | some r1 =>
        simp only [hr]
        cases h1 : fsUpdate users r1 (creditL1 price) with
        | none => simp [h1]
        | some users1 =>
          simp only [h1]
          have hpres1 : ∀ j, (users1 j).map User.hasDeposited
              = (users j).map User.hasDeposited :=
            fun j => fsUpdate_hasDeposited users r1 (creditL1 price)
              (fun v => rfl) users1 h1 j
          cases hrd : users1 r1 with
          | none => simpa using hpres1 k
          | some rdoc =>
            simp only [hrd]
            cases hg : refOf rdoc.referredBy with
            | none => simpa using hpres1 k
            | some r2 =>
              simp only [hg]
              cases h2 : fsUpdate users1 r2 (creditL2 price) with
              | none => simpa using hpres1 k
              | some users2 =>
                simp only [h2]
                have hpres2 : ∀ j, (users2 j).map User.hasDeposited
                    = (users1 j).map User.hasDeposited :=
                  fun j =>
                    fsUpdate_hasDeposited users1 r2 (creditL2 price)
                      (fun v => rfl) users2 h2 j
                simpa using (hpres2 k).trans (hpres1 k)

/-! Concrete fixtures used by witnesses and counterexamples. -/

def emptyUsers : Users := fun _ => none

/-- Scenario-1 user: balance 0, no deposit yet. -/
def s1User : User := ⟨0, false, none, none, none, 0, 0⟩

def s1Store : Users := setUser emptyUsers "u1" s1User

/-- A user who has already deposited, with balance 0. -/
def dUser : User := ⟨0, true, none, none, none, 0, 0⟩

def dStore : Users := setUser emptyUsers "u1" dUser

/-- An approved order of 100 for user `u1`. -/
def dPay : PaymentInfo := ⟨"approved", "u1", 100⟩

/-! Claim theorems. -/

/-- C3: for every existing user and every approved order of amount `a`,
confirming the deposit credits the balance by exactly `a + bonus`, with
`bonus = a * 1/2` iff `hasDeposited` is false and `a ≥ 200`, else `0`, and the
same update sets `hasDeposited` to true. -/
theorem C3_deposit_credit (users : Users) (p : PaymentInfo) (u : User)
    (hs : p.status = "approved") (hu : users p.external_reference = some u) :
    (paymentWebhook "payment" p users).1 p.external_reference
      = some { u with
          balance := u.balance + (p.transaction_amount +
            (if u.hasDeposited = false ∧ 200 ≤ p.transaction_amount
             then p.transaction_amount * (1 / 2) else 0))
          hasDeposited := true } := by
  simp [paymentWebhook, hs, hu, setUser]

/-- C3 witness: Scenario 1 — balance 0, `hasDeposited = false`, approved
deposit of 300 yields balance 450 and `hasDeposited = true`. -/
theorem C3_deposit_credit_witness :
    (paymentWebhook "payment" ⟨"approved", "u1", 300⟩ s1Store).1 "u1"
      = some ⟨450, true, none, none, none, 0, 0⟩ := by
  rw [C3_deposit_credit s1Store ⟨"approved", "u1", 300⟩ s1User rfl rfl]
  norm_num [s1User]

/-- C8: the webhook acknowledges (HTTP 200) without mutating any ledger state
when the topic is not `payment`, when the fetched payment status is not
`approved`, or when the order's `external_reference` names no existing user. -/
theorem C8_webhook_ack_noop (topic : String) (p : PaymentInfo) (users : Users) :
    (topic ≠ "payment" → paymentWebhook topic p users = (users, 200))
  ∧ (p.status ≠ "approved" → paymentWebhook topic p users = (users, 200))
  ∧ (users p.external_reference = none →
      paymentWebhook topic p users = (users, 200)) := by
  refine ⟨fun h => by simp [paymentWebhook, h], fun h => ?_, fun h => ?_⟩
  · by_cases ht : topic = "payment"
    · simp [paymentWebhook, ht, h]
    · simp [paymentWebhook, ht]
  · by_cases ht : topic = "payment"
    · by_cases hs : p.status = "approved"
      · simp [paymentWebhook, ht, hs, h]
      · simp [paymentWebhook, ht, hs]
    · simp [paymentWebhook, ht]

/-- C8 witness: a pending (non-approved) payment is acknowledged with no
mutation. -/
theorem C8_webhook_ack_noop_witness :
    paymentWebhook "payment" ⟨"pending", "u1", 300⟩ s1Store = (s1Store, 200) :=
  (C8_webhook_ack_noop "payment" ⟨"pending", "u1", 300⟩ s1Store).2.1 (by decide)

/-- C9: a first deposit of amount below 200 credits exactly the amount (no
bonus) and still sets `hasDeposited` to true; afterwards, any approved deposit
on a user whose flag is true credits exactly its amount (bonus 0) and keeps the
flag true, and neither withdrawals nor commission distribution ever change the
flag — so the 50% first-deposit bonus is forfeited forever. -/
theorem C9_small_first_deposit (users : Users) (ref : String) (u : User)
    (a : ℚ) (hu : users ref = some u) (hd : u.hasDeposited = false)
    (ha : a < 200) :
    (paymentWebhook "payment" ⟨"approved", ref, a⟩ users).1 ref
      = some { u with balance := u.balance + a, hasDeposited := true }
  ∧ (∀ (users2 : Users) (u2 : User) (a2 : ℚ), users2 ref = some u2 →
      u2.hasDeposited = true →
      (paymentWebhook "payment" ⟨"approved", ref, a2⟩ users2).1 ref
        = some { u2 with balance := u2.balance + a2, hasDeposited := true })
  ∧ (∀ (auth : Option String) (amt : ℚ) (users2 : Users),
      (((processWithdrawal auth amt users2).1) ref).map User.hasDeposited
        = (users2 ref).map User.hasDeposited)
  ∧ (∀ (products : Products) (users2 : Users) (uid2 pid2 : String),
      (((distributeCommissions products users2 uid2 pid2).1) ref).map
          User.hasDeposited
        = (users2 ref).map User.hasDeposited) := by
  refine ⟨?_, ?_, ?_, ?_⟩
  · have h200 : ¬ (200 : ℚ) ≤ a := not_le.mpr ha
    simp [paymentWebhook, hu, hd, h200, setUser]
  · intro users2 u2 a2 hu2 hd2
    simp [paymentWebhook, hu2, hd2, setUser]
  · intro auth amt users2
    exact processWithdrawal_hasDeposited auth amt users2 ref
  · intro products users2 uid2 pid2
    exact distributeCommissions_hasDeposited products users2 uid2 pid2 ref

/-- C9 witness: user with balance 10 and `hasDeposited = false`, approved
deposit of 100 (< 200): credited exactly 100, flag set true. -/
theorem C9_small_first_deposit_witness :
    (paymentWebhook "payment" ⟨"approved", "u1", 100⟩ s1Store).1 "u1"
      = some { s1User with
          balance := s1User.balance + 100
          hasDeposited := true } :=
  (C9_small_first_deposit s1Store "u1" s1User 100 rfl rfl (by norm_num)).1

/-- C1 is violated by the code: `paymentWebhook` keeps no record of processed
order ids, so re-delivering the notification of the same approved order
credits the amount a second time. Starting from balance 0 (user already has
`hasDeposited = true`, so no bonus is involved), the first delivery of the
approved order of 100 yields balance 100 and the second delivery of the very
same order yields balance 200 — a double credit, where the claim requires the
balance to be unchanged. -/
theorem C1_redelivery_double_credits :
    (((paymentWebhook "payment" dPay dStore).1) "u1").map User.balance
        = some 100
  ∧ (((paymentWebhook "payment" dPay
        (paymentWebhook "payment" dPay dStore).1).1) "u1").map User.balance
        = some 200 := by
  constructor
  · norm_num [paymentWebhook, dPay, dStore, dUser, setUser, emptyUsers]
  · norm_num [paymentWebhook, dPay, dStore, dUser, setUser, emptyUsers]

/-- An existing user with balance 100 and a complete payout profile. -/
def wUser : User := ⟨100, true, none, some "chave-pix", some "Nome Completo", 0, 0⟩

def wStore : Users := setUser emptyUsers "u1" wUser

/-- An existing user with balance 10 and no payout profile. -/
def npUser : User := ⟨10, true, none, none, none, 0, 0⟩

def npStore : Users := setUser emptyUsers "u1" npUser

/-- C4: for an authenticated existing user and an amount within [30, 5000],
the withdrawal succeeds iff the balance is at least the amount and a payout
profile (pix key and holder name) is registered; on success the balance
decreases by exactly the amount, and on every failure the store is unchanged. -/
theorem C4_withdrawal_success_iff (users : Users) (uid : String) (u : User)
    (amount : ℚ) (h30 : 30 ≤ amount) (h5000 : amount ≤ 5000)
    (hu : users uid = some u) :
    (isSuccess (processWithdrawal (some uid) amount users).2 = true ↔
      (jsTruthy u.pixKey = true ∧ jsTruthy u.pixFullName = true
        ∧ amount ≤ u.balance))
  ∧ (isSuccess (processWithdrawal (some uid) amount users).2 = true →
      (processWithdrawal (some uid) amount users).1 uid
        = some { u with balance := u.balance - amount })
  ∧ (isSuccess (processWithdrawal (some uid) amount users).2 = false →
      (processWithdrawal (some uid) amount users).1 = users) := by
  have hnb : ¬ (amount < 30 ∨ 5000 < amount) :=
    not_or.mpr ⟨not_lt.mpr h30, not_lt.mpr h5000⟩
  by_cases hk : jsTruthy u.pixKey = true
  · by_cases hn : jsTruthy u.pixFullName = true
    · by_cases hb : u.balance < amount
      · refine ⟨?_, ?_, ?_⟩ <;>
          simp [processWithdrawal, withdrawalCheck, hnb, hu, hk, hn, hb,
            isSuccess, not_le.mpr hb]
      · have hb2 : amount ≤ u.balance := not_lt.mp hb
        refine ⟨?_, ?_, ?_⟩ <;>
          simp [processWithdrawal, withdrawalCheck, hnb, hu, hk, hn, hb,
            isSuccess, applyDebit, setUser, hb2]
    · refine ⟨?_, ?_, ?_⟩ <;>
        simp [processWithdrawal, withdrawalCheck, hnb, hu, hk, hn, isSuccess]
  · refine ⟨?_, ?_, ?_⟩ <;>
      simp [processWithdrawal, withdrawalCheck, hnb, hu, hk, isSuccess]

/-- C4 witness: Scenario 2 — balance 100, complete payout profile, withdrawal
of 150: the success test, the success postcondition and the failure frame
instantiated at that input. -/
theorem C4_withdrawal_success_iff_witness :
    (isSuccess (processWithdrawal (some "u1") 150 wStore).2 = true ↔
      (jsTruthy wUser.pixKey = true ∧ jsTruthy wUser.pixFullName = true
        ∧ (150 : ℚ) ≤ wUser.balance))
  ∧ (isSuccess (processWithdrawal (some "u1") 150 wStore).2 = true →
      (processWithdrawal (some "u1") 150 wStore).1 "u1"
        = some { wUser with balance := wUser.balance - 150 })
  ∧ (isSuccess (processWithdrawal (some "u1") 150 wStore).2 = false →
      (processWithdrawal (some "u1") 150 wStore).1 = wStore) :=
  C4_withdrawal_success_iff wStore "u1" wUser 150 (by norm_num) (by norm_num)
    rfl

/-- C6: `processWithdrawal` returns the typed error of the failed
precondition with the store unchanged: missing identity → unauthenticated;
amount out of [30, 5000] → invalid-argument; missing user → not-found; missing
payout profile or insufficient balance → failed-precondition (with the
respective message). -/
theorem C6_withdrawal_error_taxonomy (users : Users) (uid : String)
    (amount : ℚ) :
    (processWithdrawal none amount users
        = (users, .error ⟨.unauthenticated, msgUnauthenticated⟩))
  ∧ ((amount < 30 ∨ 5000 < amount) →
      processWithdrawal (some uid) amount users
        = (users, .error ⟨.invalidArgument, msgInvalidAmount⟩))
  ∧ (¬ (amount < 30 ∨ 5000 < amount) → users uid = none →
      processWithdrawal (some uid) amount users
        = (users, .error ⟨.notFound, msgUserNotFound⟩))
  ∧ (∀ u, ¬ (amount < 30 ∨ 5000 < amount) → users uid = some u →
      (jsTruthy u.pixKey && jsTruthy u.pixFullName) = false →
      processWithdrawal (some uid) amount users
        = (users, .error ⟨.failedPrecondition, msgPixIncomplete⟩))
  ∧ (∀ u, ¬ (amount < 30 ∨ 5000 < amount) → users uid = some u →
      (jsTruthy u.pixKey && jsTruthy u.pixFullName) = true →
      u.balance < amount →
      processWithdrawal (some uid) amount users
        = (users, .error ⟨.failedPrecondition, msgInsufficient⟩)) := by
  refine ⟨rfl, fun h => ?_, fun h hnone => ?_, fun u h hu hpix => ?_,
    fun u h hu hpix hb => ?_⟩
  · simp [processWithdrawal, withdrawalCheck, h]
  · simp [processWithdrawal, withdrawalCheck, h, hnone]
  · rcases Bool.and_eq_false_iff.mp hpix with hk | hn
    · simp [processWithdrawal, withdrawalCheck, h, hu, hk]
    · simp [processWithdrawal, withdrawalCheck, h, hu, hn]
  · have hkn : jsTruthy u.pixKey = true ∧ jsTruthy u.pixFullName = true := by
      simpa using hpix
    simp [processWithdrawal, withdrawalCheck, h, hu, hkn.1, hkn.2, hb]

/-- C6 witness: Scenario 2 — balance 100, payout profile registered,
withdrawal of 150 fails with failed-precondition "Saldo insuficiente." and the
store is unchanged. -/
theorem C6_withdrawal_error_taxonomy_witness :
    processWithdrawal (some "u1") 150 wStore
      = (wStore, .error ⟨.failedPrecondition, msgInsufficient⟩) :=
  (C6_withdrawal_error_taxonomy wStore "u1" 150).2.2.2.2 wUser (by norm_num)
    rfl (by decide) (by norm_num [wUser])

/-- C10: the preconditions of `processWithdrawal` are evaluated in the fixed
order authentication, amount bounds, user existence, payout profile, balance:
each error requires nothing about the later checks, and in particular a user
with both a missing payout profile and an insufficient balance receives the
missing-payout-profile error. -/
theorem C10_precondition_order (users : Users) (uid : String) (amount : ℚ) :
    (∀ a2 : ℚ, processWithdrawal none a2 users
        = (users, .error ⟨.unauthenticated, msgUnauthenticated⟩))
  ∧ ((amount < 30 ∨ 5000 < amount) →
      processWithdrawal (some uid) amount users
        = (users, .error ⟨.invalidArgument, msgInvalidAmount⟩))
  ∧ (30 ≤ amount → amount ≤ 5000 → users uid = none →
      processWithdrawal (some uid) amount users
        = (users, .error ⟨.notFound, msgUserNotFound⟩))
  ∧ (∀ u, 30 ≤ amount → amount ≤ 5000 → users uid = some u →
      (jsTruthy u.pixKey && jsTruthy u.pixFullName) = false →
      u.balance < amount →
      processWithdrawal (some uid) amount users
        = (users, .error ⟨.failedPrecondition, msgPixIncomplete⟩)) := by
  refine ⟨fun a2 => rfl, fun h => ?_, fun h30 h5000 hnone => ?_,
    fun u h30 h5000 hu hpix hb => ?_⟩
  · simp [processWithdrawal, withdrawalCheck, h]
  · have hnb : ¬ (amount < 30 ∨ 5000 < amount) :=
      not_or.mpr ⟨not_lt.mpr h30, not_lt.mpr h5000⟩
    simp [processWithdrawal, withdrawalCheck, hnb, hnone]
  · have hnb : ¬ (amount < 30 ∨ 5000 < amount) :=
      not_or.mpr ⟨not_lt.mpr h30, not_lt.mpr h5000⟩
    rcases Bool.and_eq_false_iff.mp hpix with hk | hn
    · simp [processWithdrawal, withdrawalCheck, hnb, hu, hk]
    · simp [processWithdrawal, withdrawalCheck, hnb, hu, hn]

/-- C10 witness: balance 10 and no payout profile, withdrawal of 50 — both the
profile check and the balance check fail, and the error returned is the
missing-payout-profile one. -/
theorem C10_precondition_order_witness :
    processWithdrawal (some "u1") 50 npStore
      = (npStore, .error ⟨.failedPrecondition, msgPixIncomplete⟩) :=
  (C10_precondition_order npStore "u1" 50).2.2.2 npUser (by norm_num)
    (by norm_num) rfl (by decide) (by norm_num [npUser])

/-- Affiliating user of the three-level witness chain: referred by `r1`. -/
def cU : User := ⟨0, false, some "r1", none, none, 0, 0⟩

/-- Level-1 referrer of the witness chain: referred by `r2`. -/
def cR1 : User := ⟨10, true, some "r2", none, none, 1, 2⟩

/-- Level-2 referrer of the witness chain: no referrer. -/
def cR2 : User := ⟨20, true, none, none, none, 3, 4⟩

def cStore : Users :=
  setUser (setUser (setUser emptyUsers "u" cU) "r1" cR1) "r2" cR2

/-- A catalogue with one product `p` of price 1000. -/
def cProducts : Products := fun k => if k = "p" then some 1000 else none

/-- C5: on an affiliation by user `uid` on a product of price `P`: with no
referrer nothing changes; with a referrer `r1` that has no own referrer, `r1`
gains exactly `P * 20/100` on balance and `earningsLevel1` and nobody else
changes; with `r1` referred in turn by `r2`, additionally `r2` gains exactly
`P * 5/100` on balance and `earningsLevel2`, and every other user — in
particular every ancestor beyond level 2 — is unchanged. -/
theorem C5_commission_cascade (products : Products) (users : Users)
    (uid pid : String) (P : ℚ) (u : User)
    (hp : products pid = some P) (hu : users uid = some u) :
    (refOf u.referredBy = none →
      (distributeCommissions products users uid pid).1 = users)
  ∧ (∀ r1 R1, refOf u.referredBy = some r1 → users r1 = some R1 →
      refOf R1.referredBy = none →
        (distributeCommissions products users uid pid).1 r1
            = some { R1 with
                balance := R1.balance + P * (20 / 100)
                earningsLevel1 := R1.earningsLevel1 + P * (20 / 100) }
      ∧ ∀ k, k ≠ r1 →
          (distributeCommissions products users uid pid).1 k = users k)
  ∧ (∀ r1 R1 r2 R2, refOf u.referredBy = some r1 → users r1 = some R1 →
      refOf R1.referredBy = some r2 → users r2 = some R2 → r1 ≠ r2 →
        (distributeCommissions products users uid pid).1 r1
            = some { R1 with
                balance := R1.balance + P * (20 / 100)
                earningsLevel1 := R1.earningsLevel1 + P * (20 / 100) }
      ∧ (distributeCommissions products users uid pid).1 r2
            = some { R2 with
                balance := R2.balance + P * (5 / 100)
                earningsLevel2 := R2.earningsLevel2 + P * (5 / 100) }
      ∧ ∀ k, k ≠ r1 → k ≠ r2 →
          (distributeCommissions products users uid pid).1 k = users k) := by
  refine ⟨fun h => ?_, fun r1 R1 h1 hR1 h2 => ⟨?_, fun k hk => ?_⟩,
    fun r1 R1 r2 R2 h1 hR1 h2 hR2 hne => ⟨?_, ?_, fun k hk1 hk2 => ?_⟩⟩
  · simp [distributeCommissions, hp, hu, h]
  · simp [distributeCommissions, hp, hu, h1, fsUpdate, hR1, setUser, creditL1,
      h2]
  · simp [distributeCommissions, hp, hu, h1, fsUpdate, hR1, setUser, creditL1,
      h2, hk]
  · simp [distributeCommissions, hp, hu, h1, fsUpdate, hR1, setUser, creditL1,
      creditL2, h2, hR2, hne, Ne.symm hne]
  · simp [distributeCommissions, hp, hu, h1, fsUpdate, hR1, setUser, creditL1,
      creditL2, h2, hR2, hne, Ne.symm hne]
  · simp [distributeCommissions, hp, hu, h1, fsUpdate, hR1, setUser, creditL1,
      creditL2, h2, hR2, hne, Ne.symm hne, hk1, hk2]

/-- C5 witness: Scenario 3 — price 1000, chain `u → r1 → r2`: `r1` gains 200
on balance and `earningsLevel1`, `r2` gains 50 on balance and
`earningsLevel2`, and `u` itself is unchanged. -/
theorem C5_commission_cascade_witness :
    (distributeCommissions cProducts cStore "u" "p").1 "r1"
        = some { cR1 with
            balance := cR1.balance + 1000 * (20 / 100)
            earningsLevel1 := cR1.earningsLevel1 + 1000 * (20 / 100) }
  ∧ (distributeCommissions cProducts cStore "u" "p").1 "r2"
        = some { cR2 with
            balance := cR2.balance + 1000 * (5 / 100)
            earningsLevel2 := cR2.earningsLevel2 + 1000 * (5 / 100) }
  ∧ (distributeCommissions cProducts cStore "u" "p").1 "u" = cStore "u" :=
  ⟨((C5_commission_cascade cProducts cStore "u" "p" 1000 cU rfl rfl).2.2 "r1"
      cR1 "r2" cR2 rfl rfl rfl rfl (by decide)).1,
   ((C5_commission_cascade cProducts cStore "u" "p" 1000 cU rfl rfl).2.2 "r1"
      cR1 "r2" cR2 rfl rfl rfl rfl (by decide)).2.1,
   ((C5_commission_cascade cProducts cStore "u" "p" 1000 cU rfl rfl).2.2 "r1"
      cR1 "r2" cR2 rfl rfl rfl rfl (by decide)).2.2 "u" (by decide)
      (by decide)⟩

/-- Affiliating user of the dangling-chain witness: referred by `m1`. -/
def bUser : User := ⟨0, false, some "m1", none, none, 0, 0⟩

/-- Level-1 referrer of the dangling chain: referred by the missing `ghost`. -/
def bM1 : User := ⟨5, true, some "ghost", none, none, 0, 0⟩

def bStore : Users := setUser (setUser emptyUsers "u2" bUser) "m1" bM1

/-- C7: a missing product or a missing affiliating user ends the commission
run as a clean no-op — store unchanged and no error caught; and when the
level-2 write fails (the grand-referrer document is missing, so its `update`
rejects), the level-1 credit is kept (not rolled back) and the failure is
caught and logged. -/
theorem C7_commission_error_handling (products : Products) (users : Users)
    (uid pid : String) :
    (products pid = none →
      distributeCommissions products users uid pid = (users, false))
  ∧ (∀ P, products pid = some P → users uid = none →
      distributeCommissions products users uid pid = (users, false))
  ∧ (∀ P u r1 R1 r2, products pid = some P → users uid = some u →
      refOf u.referredBy = some r1 → users r1 = some R1 →
      refOf R1.referredBy = some r2 → users r2 = none →
        (distributeCommissions products users uid pid).1 r1
          = some (creditL1 P R1)
      ∧ (distributeCommissions products users uid pid).2 = true
      ∧ ∀ k, k ≠ r1 →
          (distributeCommissions products users uid pid).1 k = users k) := by
  refine ⟨fun h => ?_, fun P h hnone => ?_,
    fun P u r1 R1 r2 hp hu h1 hR1 h2 hR2 => ?_⟩
  · simp [distributeCommissions, h]
  · simp [distributeCommissions, h, hnone]
  · have hne : r2 ≠ r1 := by
      intro he
      rw [he, hR1] at hR2
      simp at hR2
    refine ⟨?_, ?_, fun k hk => ?_⟩
    · simp [distributeCommissions, hp, hu, h1, fsUpdate, hR1, setUser,
        creditL1, h2, hR2, hne]
    · simp [distributeCommissions, hp, hu, h1, fsUpdate, hR1, setUser,
        creditL1, h2, hR2, hne]
    · simp [distributeCommissions, hp, hu, h1, fsUpdate, hR1, setUser,
        creditL1, h2, hR2, hne, hk]

/-- C7 witness: chain `u2 → m1 → ghost` where `ghost` has no document: the
level-1 credit to `m1` is applied and kept, and an error is caught for the
level-2 write. -/
theorem C7_commission_error_handling_witness :
    (distributeCommissions cProducts bStore "u2" "p").1 "m1"
        = some (creditL1 1000 bM1)
  ∧ (distributeCommissions cProducts bStore "u2" "p").2 = true :=
  ⟨((C7_commission_error_handling cProducts bStore "u2" "p").2.2 1000 bUser
      "m1" bM1 "ghost" rfl rfl rfl rfl rfl rfl).1,
   ((C7_commission_error_handling cProducts bStore "u2" "p").2.2 1000 bUser
      "m1" bM1 "ghost" rfl rfl rfl rfl rfl rfl).2.1⟩

/-- Progress of one in-flight `processWithdrawal` invocation, split at the
await boundary between the read/validate phase (`userRef.get()` plus the
checks, index.js lines 161-184) and the debit write
(`update({balance: increment(-amount)})`, lines 187-189). -/
inductive InvPhase
  | pending
  | checked
  | done (ok : Bool)
  deriving DecidableEq, Repr

/-- The shared store plus the control point of each concurrent invocation. -/
structure ConcState where
  users : Users
  phases : List InvPhase

/-- One scheduler step: run the next phase of invocation `i`. The read phase
is exactly `withdrawalCheck` against the current store; once it has passed,
the debit write decrements the balance unconditionally — the source performs
the `get()` and the `update()` as two separately awaited calls with no
transaction, so nothing re-validates the balance at write time. -/
def concStep (userId : String) (amount : ℚ) (s : ConcState) (i : Nat) :
    ConcState :=
  match s.phases.get? i with
  | some .pending =>
    match withdrawalCheck userId amount s.users with
    | .ok _ => { s with phases := s.phases.set i .checked }
    | .error _ => { s with phases := s.phases.set i (.done false) }
  | some .checked =>
    { users := applyDebit s.users userId amount
      phases := s.phases.set i (.done true) }
  | _ => s

/-- Run a schedule (a list of invocation indices) from a state. -/
def concRun (userId : String) (amount : ℚ) (sched : List Nat)
    (s : ConcState) : ConcState :=
  sched.foldl (concStep userId amount) s

/-- Two concurrent withdrawals of 100 against `wStore` (balance 100). -/
def cw0 : ConcState := ⟨wStore, [.pending, .pending]⟩

/-- The interleaving read(0), read(1), debit(0), debit(1). -/
def cwFinal : ConcState := concRun "u1" 100 [0, 1, 0, 1] cw0

/-- C2 is violated by the code: the balance check and the debit are two
separate awaited store operations, not one transaction, so with starting
balance B = 100 and withdrawal amount w = 100 (hence at most ⌊B/w⌋ = 1
success allowed by the claim), the interleaving read-read-debit-debit of two
concurrent invocations lets both pass the check against the stale balance and
both debit: both finish successfully and the final balance is -100, i.e.
cumulative debits of 200 > B. -/
theorem C2_concurrent_overdraft :
    cwFinal.phases = [InvPhase.done true, InvPhase.done true]
  ∧ (cwFinal.users "u1").map User.balance = some (-100)
  ∧ wUser.balance = 100 := by
  have hk : ("chave-pix" : String) ≠ "" := by decide
  have hn : ("Nome Completo" : String) ≠ "" := by decide
  refine ⟨?_, ?_, ?_⟩
  · norm_num [cwFinal, concRun, concStep, cw0, wStore, wUser, setUser,
      emptyUsers, withdrawalCheck, applyDebit, jsTruthy, List.foldl, hk, hn]
  · norm_num [cwFinal, concRun, concStep, cw0, wStore, wUser, setUser,
      emptyUsers, withdrawalCheck, applyDebit, jsTruthy, List.foldl, hk, hn]
  · norm_num [wUser]

end Pirame
